import Mathlib

/-!
Shallow embedding of the face-verification microservice
(`deepface-microservice/api.py`): the request-validation and decision
pipeline of the two endpoints `/detect-face` and `/verify`, together with
the two image resolvers. The external recognition engine (DeepFace) and
the external image decoders (requests + cv2.imdecode, base64.b64decode)
are modelled as data: each call site takes the engine/decoder outcome as
an explicit argument, and the pipeline is the pure function from those
outcomes to the HTTP-level result. Python exception semantics are made
explicit: each `raise HTTPException` site becomes an error constructor,
uncaught exceptions that the broad `except Exception` handler converts to
a 500 become `internalError`-style constructors, and two latent raise
sites of the Python code are modelled faithfully (`faces[0]` on an empty
list raises IndexError; reading the unassigned local `ratio` raises
NameError).
-/

set_option autoImplicit false

namespace FaceApi

/-- A decoded raster image (`np.ndarray`): the pipeline only ever reads its
pixel dimensions (`img.shape`). -/
structure Image where
  height : Nat
  width : Nat
deriving DecidableEq, Repr

/-- An HTTP-level failure: the `status_code` and `detail` carried by a
`fastapi.HTTPException`. -/
structure ApiError where
  status_code : Nat
  detail : String
deriving DecidableEq, Repr

/-- Python `int(q)`: truncation toward zero. -/
def int_trunc (q : ℚ) : Int :=
  if 0 ≤ q then ⌊q⌋ else ⌈q⌉

/-- Python `round(q, 2)`: rounding to two decimal places (tie behaviour is
immaterial to the pipeline; the ratios involved are quotients of pixel
counts). -/
def round2 (q : ℚ) : ℚ :=
  (round (q * 100) : ℤ) / 100

/-! ## Image resolvers (§ helper functions `read_image_from_url`,
`read_image_from_base64`)

The network fetch, the base64 decode and `cv2.imdecode` are external; a
resolver call site is therefore parameterised by the outcome of those
external steps, and the resolver maps that outcome to what the Python
function returns or raises. -/

/-- Outcome of the external steps inside `read_image_from_url`:
`requests.get`/`raise_for_status` may raise (network error or non-2xx),
`cv2.imdecode` may return `None`, anything else in the `try` block may
raise, or a decoded image is produced. -/
inductive FetchOutcome where
  | requestError (msg : String)
  | imdecodeNone
  | otherError (msg : String)
  | ok (img : Image)
deriving DecidableEq, Repr

/-- `read_image_from_url`: every exception inside the `try` block is caught
by the broad handler and re-raised as a 400 `HTTPException`. -/
def read_image_from_url : FetchOutcome → Except ApiError Image
  | .requestError m => .error ⟨400, s!"Could not fetch or read image from URL: {m}"⟩
  | .imdecodeNone =>
      .error ⟨400, "Could not fetch or read image from URL: Could not decode image from URL."⟩
  | .otherError m => .error ⟨400, s!"Could not fetch or read image from URL: {m}"⟩
  | .ok img => .ok img

/-- Outcome of the external steps inside `read_image_from_base64`:
`base64.b64decode` may raise `binascii.Error`, `cv2.imdecode` may return
`None`, anything else in the `try` block may raise, or a decoded image is
produced. -/
inductive DecodeOutcome where
  | b64Error (msg : String)
  | imdecodeNone
  | otherError (msg : String)
  | ok (img : Image)
deriving DecidableEq, Repr

/-- `read_image_from_base64`: every exception inside the `try` block is
caught by the broad handler and re-raised as a 400 `HTTPException`. -/
def read_image_from_base64 : DecodeOutcome → Except ApiError Image
  | .b64Error m => .error ⟨400, s!"Invalid Base64 image: {m}"⟩
  | .imdecodeNone =>
      .error ⟨400, "Invalid Base64 image: Could not decode image from Base64 string."⟩
  | .otherError m => .error ⟨400, s!"Invalid Base64 image: {m}"⟩
  | .ok img => .ok img

/-- The spec's postcondition on the external raster decoder (§4.1 / §3): a
successfully decoded image has positive height and width. `cv2.imdecode`
is an external collaborator, so this is a hypothesis about its outcome,
not a fact of the repository's code. -/
def DecodeOutcome.meetsContract : DecodeOutcome → Prop
  | .ok img => 0 < img.height ∧ 0 < img.width
  | _ => True

/-- The same decoder postcondition for the URL path. -/
def FetchOutcome.meetsContract : FetchOutcome → Prop
  | .ok img => 0 < img.height ∧ 0 < img.width
  | _ => True

/-! ## Data-URI stripping inside `read_image_from_base64`

The string manipulation `if "," in b64_string: b64_string =
b64_string.split(",")[1]` is pure Python string code, embedded here over
`List Char`. `split_comma` mirrors `str.split(",")` exactly (empty
segments included). -/

/-- Python `"," in s`. -/
def has_comma : List Char → Bool
  | [] => false
  | c :: rest => if c = ',' then true else has_comma rest

/-- Python `s.split(",")`. -/
def split_comma : List Char → List (List Char)
  | [] => [[]]
  | c :: rest =>
      if c = ',' then [] :: split_comma rest
      else
        match split_comma rest with
        | [] => [[c]]
        | seg :: segs => (c :: seg) :: segs

/-- The base64 payload actually decoded by `read_image_from_base64`:
`b64_string.split(",")[1]` when the string contains a comma, else the
string itself. (The index-1 access cannot miss when a comma is present,
so the `getD` default is never used in that branch.) -/
def b64_payload (s : List Char) : List Char :=
  if has_comma s then (split_comma s).getD 1 [] else s

/-- The spec's description of the stripping step, stated in its own words
(§4.1: strip "anything before and including the first comma"): the full
suffix of the input after its first comma. -/
def suffix_after_first_comma (s : List Char) : List Char :=
  (s.dropWhile (fun c => c != ',')).drop 1

/-! ## `/detect-face` (`detect_face`) -/

/-- One entry of the list returned by `DeepFace.extract_faces` with
`anti_spoofing=True` — the three dictionary fields the endpoint reads,
each optional because the code reads them with `.get(..., default)`:
`is_real`, `antispoof_score`, and `facial_area["h"]` (an absent
`facial_area` and an absent `"h"` key are indistinguishable to the code,
which defaults both to `0`). -/
structure Face where
  is_real : Option Bool
  antispoof_score : Option ℚ
  facial_area_h : Option Nat
deriving DecidableEq, Repr

/-- Outcome of the external call `DeepFace.extract_faces(...)`: a
`ValueError` (raised when zero faces are found, `enforce_detection`
defaulting to true), some other exception, or a list of faces. -/
inductive ExtractOutcome where
  | valueError (msg : String)
  | otherError (msg : String)
  | ok (faces : List Face)
deriving DecidableEq, Repr

/-- The success payload of `/detect-face` (the `"status": "success"`
constant field is omitted as carrying no information). -/
structure DetectSuccess where
  is_real : Bool
  antispoof_score : ℚ
  face_height_ratio : ℚ
deriving DecidableEq, Repr

/-- The raise sites of `detect_face`, one constructor per site:
`indexError` is the uncaught `IndexError` from `faces[0]` on an empty
list, and `zeroDivision` the uncaught `ZeroDivisionError` from
`face_height / img_height` when the image height is zero; both fall to
the broad `except Exception` handler (a Python `IndexError` and
`ZeroDivisionError` are not `ValueError`s). -/
inductive DetectError where
  | noFaceDetected (msg : String)
  | multipleFacesDetected (count : Nat)
  | indexError
  | spoofDetected
  | zeroDivision
  | faceTooSmall (r : ℚ)
  | internalError (msg : String)
deriving DecidableEq, Repr

/-- The `detail` string of the `FaceTooSmall` failure of `/detect-face`,
reporting the ratio as the integer percentage `int(height_ratio*100)`. -/
def smallDetectMsg (r : ℚ) : String :=
  let p := int_trunc (r * 100)
  s!"Face is too small/far away ({p}%). Please move closer (target: 50%+)."

/-- Mapping from each raise site of `detect_face` to the HTTP response it
produces, exactly the `HTTPException(status_code, detail)` of the
code (uncaught exceptions go through the final handler's
`f"Internal server error: {str(e)}"`). -/
def DetectError.toApi : DetectError → ApiError
  | .noFaceDetected _ => ⟨400, "No face detected in the image. Please try again."⟩
  | .multipleFacesDetected n =>
      ⟨400, s!"Registration failed: Found {n} faces. Please provide a photo with exactly one face."⟩
  | .indexError => ⟨500, "Internal server error: list index out of range"⟩
  | .spoofDetected =>
      ⟨400, "Spoof detected. Please provide a live, real photo (no screens or printed photos)."⟩
  | .zeroDivision => ⟨500, "Internal server error: division by zero"⟩
  | .faceTooSmall r => ⟨400, smallDetectMsg r⟩
  | .internalError m => ⟨500, s!"Internal server error: {m}"⟩

/-- The decision pipeline of `detect_face` after the base64 decode, with
the raise site kept symbolic: count check, `faces[0]`, liveness check,
then size check, in the source's order, short-circuiting at the first
failing check. -/
def detect_face_core (img_height : Nat) (extraction : ExtractOutcome) :
    Except DetectError DetectSuccess :=
  match extraction with
  | .valueError m => .error (.noFaceDetected m)
  | .otherError m => .error (.internalError m)
  | .ok faces =>
    let face_count := faces.length
    if 1 < face_count then
      .error (.multipleFacesDetected face_count)
    else
      match faces with
      | [] => .error .indexError
      | face_data :: _ =>
        let is_real := face_data.is_real.getD true
        let antispoof_score := face_data.antispoof_score.getD 0
        if is_real = false then
          .error .spoofDetected
        else
          let face_height := face_data.facial_area_h.getD 0
          if img_height = 0 then
            .error .zeroDivision
          else
            let height_ratio : ℚ := (face_height : ℚ) / (img_height : ℚ)
            if height_ratio < 1/2 then
              .error (.faceTooSmall height_ratio)
            else
              .ok ⟨is_real, antispoof_score, round2 height_ratio⟩

/-- `detect_face` at the HTTP level, given the decoded image's height and
the extraction outcome. -/
def detect_face (img_height : Nat) (extraction : ExtractOutcome) :
    Except ApiError DetectSuccess :=
  (detect_face_core img_height extraction).mapError DetectError.toApi

/-- The whole `/detect-face` handler: decode the base64 image first, then
run the pipeline on its height. -/
def detect_face_endpoint (decode : DecodeOutcome) (extraction : ExtractOutcome) :
    Except ApiError DetectSuccess :=
  match read_image_from_base64 decode with
  | .error e => .error e
  | .ok img => detect_face img.height extraction

/-! ## `/verify` (`verify_face` and `perform_verification`) -/

/-- The dictionary returned by `DeepFace.verify`, restricted to the fields
the code reads; `img2_h` is `facial_areas.get("img2", {}).get("h", 0)`
kept optional (an absent `facial_areas`, an absent `img2` entry and an
absent `h` key are indistinguishable to the code, which defaults all to
`0`). -/
structure VerifyResult where
  verified : Bool
  distance : ℚ
  threshold : ℚ
  time : ℚ
  img2_h : Option Nat
deriving DecidableEq, Repr

/-- Outcome of the external call `DeepFace.verify(...)`: a `ValueError`
(face could not be detected), some other exception, or a result
dictionary. -/
inductive VerifyOutcome where
  | valueError (msg : String)
  | otherError (msg : String)
  | ok (r : VerifyResult)
deriving DecidableEq, Repr

/-- The success payload of `/verify`. -/
structure VerifyPayload where
  is_match : Bool
  distance : ℚ
  threshold : ℚ
  time : ℚ
  r2 : ℚ
deriving DecidableEq, Repr

/-- The raise sites of `perform_verification`. `ratioNameError` is the
uncaught Python `NameError` raised at `round(ratio, 2)` in the return
statement when `face_height > 0` was false, so the local `ratio` was
never assigned; `zeroDivision` the uncaught `ZeroDivisionError` when the
probe image height is zero. Neither is a `ValueError`, so both fall to
the broad `except Exception` handler and surface as 500. (The exact
exception message text of the unbound-local error varies across Python
versions; the mapping below fixes one representative rendering, and the
500 status is version-independent.) -/
inductive VerifyError where
  | faceDetectionError (msg : String)
  | faceTooSmall (r : ℚ)
  | zeroDivision
  | ratioNameError
  | internalError (msg : String)
deriving DecidableEq, Repr

/-- The `detail` string of the `FaceTooSmall` failure of
`perform_verification`, reporting the ratio as `int(ratio*100)`. -/
def smallVerifyMsg (r : ℚ) : String :=
  let p := int_trunc (r * 100)
  s!"Face is too small ({p}%). Please move closer (target: 50%+)."

/-- Mapping from each raise site of `perform_verification` to the HTTP
response it produces. -/
def VerifyError.toApi : VerifyError → ApiError
  | .faceDetectionError m => ⟨400, s!"Face detection error: {m}"⟩
  | .faceTooSmall r => ⟨400, smallVerifyMsg r⟩
  | .zeroDivision => ⟨500, "Internal server error: division by zero"⟩
  | .ratioNameError => ⟨500, "Internal server error: name \x27ratio\x27 is not defined"⟩
  | .internalError m => ⟨500, s!"Internal server error: {m}"⟩

/-- The decision pipeline of `perform_verification`, raise sites symbolic.
When the reported probe face height is not positive, the ratio gate is
skipped, but the return statement then reads the unassigned local
`ratio`, raising `NameError` — modelled by the `ratioNameError` branch. -/
def perform_verification_core (ver_img_height : Nat) (engine : VerifyOutcome) :
    Except VerifyError VerifyPayload :=
  match engine with
  | .valueError m => .error (.faceDetectionError m)
  | .otherError m => .error (.internalError m)
  | .ok r =>
    let face_height := r.img2_h.getD 0
    if 0 < face_height then
      if ver_img_height = 0 then
        .error .zeroDivision
      else
        let q : ℚ := (face_height : ℚ) / (ver_img_height : ℚ)
        if q < 1/2 then
          .error (.faceTooSmall q)
        else
          .ok ⟨r.verified, r.distance, r.threshold, r.time, round2 q⟩
    else
      .error .ratioNameError

/-- `perform_verification` at the HTTP level. -/
def perform_verification (ver_img_height : Nat) (engine : VerifyOutcome) :
    Except ApiError VerifyPayload :=
  (perform_verification_core ver_img_height engine).mapError VerifyError.toApi

/-- The whole `/verify` handler: resolve `regimg` from its URL first, then
decode the base64 `verimg`, then run the pairwise verification; each
resolver failure propagates before the next step runs. -/
def verify_face (fetch : FetchOutcome) (decode : DecodeOutcome) (engine : VerifyOutcome) :
    Except ApiError VerifyPayload :=
  match read_image_from_url fetch with
  | .error e => .error e
  | .ok _baseimage =>
    match read_image_from_base64 decode with
    | .error e => .error e
    | .ok ver_arr => perform_verification ver_arr.height engine

/-! ## Helper lemmas -/

/-- `split(",")` never yields the empty list (mirrors Python, where
`s.split(",")` has at least one element). -/
theorem split_comma_ne_nil (s : List Char) : split_comma s ≠ [] := by
  match s with
  | [] => simp [split_comma]
  | c :: rest =>
    by_cases hc : c = ','
    · simp [split_comma, hc]
    · cases h : split_comma rest with
      | nil => simp [split_comma, hc, h]
      | cons seg segs => simp [split_comma, hc, h]

/-- The first segment of `split(",")` is the prefix of the input up to (and
excluding) its first comma. -/
theorem split_comma_head (s : List Char) :
    (split_comma s).getD 0 [] = s.takeWhile (fun c => c != ',') := by
  induction s with
  | nil => simp [split_comma]
  | cons c rest ih =>
    by_cases hc : c = ','
    · subst hc
      simp [split_comma]
    · have hb : (c != ',') = true := by simp [hc]
      cases h : split_comma rest with
      | nil => exact absurd h (split_comma_ne_nil rest)
      | cons seg segs =>
        rw [h] at ih
        simp only [List.getD, List.get?_cons_zero, Option.getD_some] at ih
        simp [split_comma, hc, h, List.takeWhile_cons, hb, ih]

/-- When the input contains a comma, `split(",")` is the head segment
followed by the split of the suffix after the first comma. -/
theorem split_comma_of_contains (s : List Char) (h : has_comma s = true) :
    split_comma s =
      s.takeWhile (fun c => c != ',') ::
        split_comma ((s.dropWhile (fun c => c != ',')).drop 1) := by
  induction s with
  | nil => simp [has_comma] at h
  | cons c rest ih =>
    by_cases hc : c = ','
    · subst hc
      simp [split_comma, List.takeWhile_cons, List.dropWhile_cons]
    · have hb : (c != ',') = true := by simp [hc]
      have hrest : has_comma rest = true := by
        simpa [has_comma, hc] using h
      cases hsp : split_comma rest with
      | nil => exact absurd hsp (split_comma_ne_nil rest)
      | cons seg segs =>
        have ih' := ih hrest
        rw [hsp] at ih'
        simp [split_comma, hc, hsp, List.takeWhile_cons, List.dropWhile_cons, hb,
          List.cons.injEq] at ih' ⊢
        exact ⟨ih'.1, ih'.2⟩

/-- Behaviour of the `/detect-face` pipeline on a single face whose
liveness flag resolves to `true`: everything up to the size gate
passes and the result is decided by the ratio comparison. -/
theorem detect_face_single_live (ih : Nat) (hih : ih ≠ 0) (f : Face)
    (hreal : f.is_real.getD true = true) :
    detect_face ih (.ok [f]) =
      if ((f.facial_area_h.getD 0 : Nat) : ℚ) / (ih : ℚ) < 1/2
      then .error ⟨400, smallDetectMsg (((f.facial_area_h.getD 0 : Nat) : ℚ) / (ih : ℚ))⟩
      else .ok ⟨true, f.antispoof_score.getD 0,
        round2 (((f.facial_area_h.getD 0 : Nat) : ℚ) / (ih : ℚ))⟩ := by
  simp only [detect_face, detect_face_core, List.length_cons, List.length_nil]
  rw [if_neg (by norm_num), hreal, if_neg (by simp), if_neg hih]
  split <;> rfl

/-- Behaviour of `perform_verification` when the engine result carries a
positive probe-face height: the result is decided by the ratio
comparison. -/
theorem perform_verification_with_height (ih : Nat) (hih : ih ≠ 0) (vr : VerifyResult)
    (fh : Nat) (hfh : 0 < fh) (hvr : vr.img2_h = some fh) :
    perform_verification ih (.ok vr) =
      if (fh : ℚ) / (ih : ℚ) < 1/2
      then .error ⟨400, smallVerifyMsg ((fh : ℚ) / (ih : ℚ))⟩
      else .ok ⟨vr.verified, vr.distance, vr.threshold, vr.time,
        round2 ((fh : ℚ) / (ih : ℚ))⟩ := by
  simp only [perform_verification, perform_verification_core, hvr, Option.getD_some]
  rw [if_pos hfh, if_neg hih]
  split <;> rfl

/-- The registration pipeline never reaches the zero-divisor raise site
when the image height is positive. -/
theorem detect_core_ne_zeroDiv (ih : Nat) (hih : ih ≠ 0) (ex : ExtractOutcome) :
    detect_face_core ih ex ≠ .error .zeroDivision := by
  cases ex with
  | valueError m => simp [detect_face_core]
  | otherError m => simp [detect_face_core]
  | ok faces =>
    cases faces with
    | nil => simp [detect_face_core]
    | cons fa rest =>
      simp only [detect_face_core]
      split_ifs <;> simp_all

/-- The verification pipeline never reaches the zero-divisor raise site
when the probe image height is positive. -/
theorem verify_core_ne_zeroDiv (ih : Nat) (hih : ih ≠ 0) (eng : VerifyOutcome) :
    perform_verification_core ih eng ≠ .error .zeroDivision := by
  cases eng with
  | valueError m => simp [perform_verification_core]
  | otherError m => simp [perform_verification_core]
  | ok r =>
    simp only [perform_verification_core]
    split_ifs <;> simp_all

/-- Soundness of the base64 resolver against the decoder contract: a
returned image is the decoder's image, so it has positive dimensions. -/
theorem read_base64_dims (d : DecodeOutcome) (hd : d.meetsContract) (img : Image)
    (h : read_image_from_base64 d = .ok img) : 0 < img.height ∧ 0 < img.width := by
  cases d with
  | b64Error m => simp [read_image_from_base64] at h
  | imdecodeNone => simp [read_image_from_base64] at h
  | otherError m => simp [read_image_from_base64] at h
  | ok i =>
    simp only [read_image_from_base64, Except.ok.injEq] at h
    subst h
    exact hd

/-- Soundness of the URL resolver against the decoder contract. -/
theorem read_url_dims (f : FetchOutcome) (hf : f.meetsContract) (img : Image)
    (h : read_image_from_url f = .ok img) : 0 < img.height ∧ 0 < img.width := by
  cases f with
  | requestError m => simp [read_image_from_url] at h
  | imdecodeNone => simp [read_image_from_url] at h
  | otherError m => simp [read_image_from_url] at h
  | ok i =>
    simp only [read_image_from_url, Except.ok.injEq] at h
    subst h
    exact hf

/-! ## Claim theorems -/

/-- Claim C1: `/detect-face` performs its checks in order with
short-circuit on first failure: more than one face fails with the
`MultipleFacesDetected` response naming the count, before the liveness or
size of any face is consulted; and a single detected face with
`is_real = false` fails with the `SpoofDetected` response regardless of
its size, in particular even when its height ratio would pass the 0.50
gate (the right-hand sides below depend on neither the faces' liveness
data nor their sizes). -/
theorem C1_count_then_liveness_then_size (ih : Nat) (faces : List Face) (f : Face) :
    (1 < faces.length →
      detect_face ih (.ok faces) =
        .error ⟨400, s!"Registration failed: Found {faces.length} faces. Please provide a photo with exactly one face."⟩) ∧
    (f.is_real = some false →
      detect_face ih (.ok [f]) =
        .error ⟨400, "Spoof detected. Please provide a live, real photo (no screens or printed photos)."⟩) := by
  constructor
  · intro h
    simp only [detect_face, detect_face_core]
    rw [if_pos h]
    rfl
  · intro h
    obtain ⟨ir, sc, fh⟩ := f
    have h' : ir = some false := h
    subst h'
    rfl

/-- Witness for C1 at concrete inputs: two faces, and one spoofed face
with an 80% height ratio. -/
theorem C1_witness :
    detect_face 100 (.ok [⟨some true, some 1, some 80⟩, ⟨some true, some 1, some 90⟩]) =
      .error ⟨400, "Registration failed: Found 2 faces. Please provide a photo with exactly one face."⟩ ∧
    detect_face 100 (.ok [⟨some false, some 1, some 80⟩]) =
      .error ⟨400, "Spoof detected. Please provide a live, real photo (no screens or printed photos)."⟩ := by
  have h := C1_count_then_liveness_then_size 100
    [⟨some true, some 1, some 80⟩, ⟨some true, some 1, some 90⟩] ⟨some false, some 1, some 80⟩
  exact ⟨h.1 (by decide), h.2 rfl⟩

/-- Claim C2 (code bug): when the engine's pairwise result reports no
probe-region height (the `img2` `h` key absent, or present with value 0),
the code skips the ratio gate but the `return` statement then evaluates
`round(ratio, 2)` with the local `ratio` never assigned; the resulting
`NameError` is caught by the broad handler and surfaces as a 500 internal
error — not the success payload the claim describes. -/
theorem C2_missing_probe_height_gives_500 :
    perform_verification 100 (.ok ⟨true, 1/4, 17/25, 3, none⟩) =
      .error ⟨500, "Internal server error: name \x27ratio\x27 is not defined"⟩ ∧
    perform_verification 100 (.ok ⟨true, 1/4, 17/25, 3, some 0⟩) =
      .error ⟨500, "Internal server error: name \x27ratio\x27 is not defined"⟩ :=
  ⟨rfl, rfl⟩

/-- Claim C3: in both flows the ratio gate is strict (`ratio < 0.50`): a
single live face decides by exactly that comparison, so a ratio of
exactly one half passes while everything below fails with the
`FaceTooSmall` response, whose message reports the truncated integer
percentage (`smallDetectMsg`/`smallVerifyMsg` embed `int_trunc (r*100)`). -/
theorem C3_ratio_gate_strict (fh ih : Nat) (hih : 0 < ih) (hfh : 0 < fh) (sc : ℚ)
    (vr : VerifyResult) (hvr : vr.img2_h = some fh) :
    (detect_face ih (.ok [⟨some true, some sc, some fh⟩]) =
      if (fh : ℚ) / (ih : ℚ) < 1/2
      then .error ⟨400, smallDetectMsg ((fh : ℚ) / (ih : ℚ))⟩
      else .ok ⟨true, sc, round2 ((fh : ℚ) / (ih : ℚ))⟩) ∧
    (perform_verification ih (.ok vr) =
      if (fh : ℚ) / (ih : ℚ) < 1/2
      then .error ⟨400, smallVerifyMsg ((fh : ℚ) / (ih : ℚ))⟩
      else .ok ⟨vr.verified, vr.distance, vr.threshold, vr.time, round2 ((fh : ℚ) / (ih : ℚ))⟩) ∧
    (2 * fh = ih →
      detect_face ih (.ok [⟨some true, some sc, some fh⟩]) =
        .ok ⟨true, sc, round2 ((fh : ℚ) / (ih : ℚ))⟩) := by
  have hih' : ih ≠ 0 := Nat.pos_iff_ne_zero.mp hih
  have h1 := detect_face_single_live ih hih' ⟨some true, some sc, some fh⟩ rfl
  simp only [Option.getD_some] at h1
  refine ⟨h1, perform_verification_with_height ih hih' vr fh hfh hvr, ?_⟩
  intro h2
  have hfq : (fh : ℚ) ≠ 0 := Nat.cast_ne_zero.mpr (Nat.pos_iff_ne_zero.mp hfh)
  have hhalf : (fh : ℚ) / (ih : ℚ) = 1/2 := by
    subst h2
    push_cast
    field_simp
    ring
  rw [h1, hhalf, if_neg (by norm_num)]

/-- Witness for C3: image height 100; a 50-pixel face passes in both
flows with the rounded ratio one half, while a 49-pixel face fails with
the 49% message. -/
theorem C3_witness :
    detect_face 100 (.ok [⟨some true, some 1, some 50⟩]) = .ok ⟨true, 1, 1/2⟩ ∧
    detect_face 100 (.ok [⟨some true, some 1, some 49⟩]) =
      .error ⟨400, "Face is too small/far away (49%). Please move closer (target: 50%+)."⟩ ∧
    perform_verification 100 (.ok ⟨true, 1/4, 17/25, 3, some 50⟩) =
      .ok ⟨true, 1/4, 17/25, 3, 1/2⟩ := by
  have hA := C3_ratio_gate_strict 50 100 (by decide) (by decide) 1
    ⟨true, 1/4, 17/25, 3, some 50⟩ rfl
  have hB := C3_ratio_gate_strict 49 100 (by decide) (by decide) 1
    ⟨true, 1/4, 17/25, 3, some 49⟩ rfl
  have hr50 : round2 (((50 : Nat) : ℚ) / ((100 : Nat) : ℚ)) = 1/2 := by
    have h5 : ((50 : Nat) : ℚ) / ((100 : Nat) : ℚ) * 100 = ((50 : Nat) : ℚ) := by
      push_cast
      norm_num
    rw [round2, h5, round_natCast]
    norm_num
  refine ⟨?_, ?_, ?_⟩
  · rw [hA.2.2 (by decide), hr50]
  · have h := hB.1
    rw [if_pos (by norm_num)] at h
    rw [h]
    have ht : int_trunc (((49 : Nat) : ℚ) / ((100 : Nat) : ℚ) * 100) = 49 := by
      have h9 : ((49 : Nat) : ℚ) / ((100 : Nat) : ℚ) * 100 = ((49 : Nat) : ℚ) := by
        push_cast
        norm_num
      rw [int_trunc, h9, if_pos (by positivity), Int.floor_natCast]
      norm_num
    simp only [smallDetectMsg, ht]
    rfl
  · have h := hA.2.1
    rw [if_neg (by norm_num)] at h
    rw [h, hr50]

/-- Claim C4: exactly one face whose liveness flag is true or omitted
(defaulting to true) and whose height ratio is at least 0.50 makes
`/detect-face` succeed with `is_real = true`, the face's antispoof score
(0 if omitted), and `face_height_ratio` the computed ratio rounded to two
decimals. -/
theorem C4_single_live_large_face (ih : Nat) (f : Face) (hih : 0 < ih)
    (hreal : f.is_real = some true ∨ f.is_real = none)
    (hr : 1/2 ≤ ((f.facial_area_h.getD 0 : Nat) : ℚ) / (ih : ℚ)) :
    detect_face ih (.ok [f]) =
      .ok ⟨true, f.antispoof_score.getD 0,
        round2 (((f.facial_area_h.getD 0 : Nat) : ℚ) / (ih : ℚ))⟩ := by
  have hg : f.is_real.getD true = true := by
    rcases hreal with h | h <;> simp [h]
  rw [detect_face_single_live ih (Nat.pos_iff_ne_zero.mp hih) f hg,
    if_neg (not_lt.mpr hr)]

/-- Witness for C4: a 60-pixel live face in a 100-pixel image succeeds
with score 9/10 and rounded ratio 0.6. -/
theorem C4_witness :
    detect_face 100 (.ok [⟨some true, some (9/10), some 60⟩]) = .ok ⟨true, 9/10, 3/5⟩ := by
  have h := C4_single_live_large_face 100 ⟨some true, some (9/10), some 60⟩ (by decide)
    (Or.inl rfl) (by norm_num)
  rw [h]
  simp only [Option.getD_some]
  have hr60 : round2 (((60 : Nat) : ℚ) / ((100 : Nat) : ℚ)) = 3/5 := by
    have h6 : ((60 : Nat) : ℚ) / ((100 : Nat) : ℚ) * 100 = ((60 : Nat) : ℚ) := by
      push_cast
      norm_num
    rw [round2, h6, round_natCast]
    norm_num
  rw [hr60]

/-- Claim C5: when the `regimg` URL fetch fails (network error or non-2xx
raised by `raise_for_status`), `/verify` fails with the 400 fetch-error
response; the right-hand side depends neither on the probe decode outcome
nor on the engine outcome, so the failure happens before the probe image
is decoded and before the engine is invoked. -/
theorem C5_fetch_failure_short_circuits (m : String) (d : DecodeOutcome) (eng : VerifyOutcome) :
    verify_face (.requestError m) d eng =
      .error ⟨400, s!"Could not fetch or read image from URL: {m}"⟩ := rfl

/-- Counterexample to claim C6: on input `"a,b,c"` the code decodes the
segment `"b"` between the first and second comma, not the full suffix
`"b,c"` after the first comma that the claim describes. -/
theorem C6_counterexample :
    b64_payload [ 'a', ',', 'b', ',', 'c' ] = [ 'b' ] ∧
    suffix_after_first_comma [ 'a', ',', 'b', ',', 'c' ] = [ 'b', ',', 'c' ] ∧
    ([ 'b' ] : List Char) ≠ [ 'b', ',', 'c' ] := by
  refine ⟨rfl, rfl, by decide⟩

/-- Claim C6 as amended: for every input containing a comma, the decoded
payload is the segment strictly between the first and the second comma —
the suffix after the first comma truncated at the next comma (hence the
full suffix only when that suffix contains no further comma). -/
theorem C6_amended_payload_between_commas (s : List Char) (hs : has_comma s = true) :
    b64_payload s = (suffix_after_first_comma s).takeWhile (fun c => c != ',') := by
  rw [b64_payload, if_pos hs, split_comma_of_contains s hs]
  simp only [List.getD, List.get?_cons_succ, List.get?_cons_zero, Option.getD_some,
    suffix_after_first_comma]
  have h0 := split_comma_head ((s.dropWhile (fun c => c != ',')).drop 1)
  simp only [List.getD] at h0
  rw [← h0]

/-- Witness for the amended C6: on `"x,yz,w"` the decoded payload is
`"yz"`. -/
theorem C6_amended_witness :
    b64_payload [ 'x', ',', 'y', 'z', ',', 'w' ] = [ 'y', 'z' ] := by
  have h := C6_amended_payload_between_commas [ 'x', ',', 'y', 'z', ',', 'w' ] (by decide)
  exact h.trans (by decide)

/-- Counterexample to claim C7: the `SpoofDetected` response's
human-readable message is a fixed string; for a face with antispoof score
37/100 the message carries no score at all, and a face differing only in
its score (99/100) produces the identical response — so the message
cannot carry the concrete offending score. -/
theorem C7_counterexample_spoof_message_fixed :
    detect_face 100 (.ok [⟨some false, some (37/100), some 80⟩]) =
      .error ⟨400, "Spoof detected. Please provide a live, real photo (no screens or printed photos)."⟩ ∧
    detect_face 100 (.ok [⟨some false, some (99/100), some 80⟩]) =
      detect_face 100 (.ok [⟨some false, some (37/100), some 80⟩]) :=
  ⟨rfl, rfl⟩

/-- Claim C7 as amended: whenever `/detect-face` fails with
`SpoofDetected`, the response carries a fixed human-readable message that
does not embed the antispoof score (the score is only written to the
server log); the response is identical for every score and face size. -/
theorem C7_amended_spoof_message_constant (ih : Nat) (sc : Option ℚ) (fh : Option Nat) :
    detect_face ih (.ok [⟨some false, sc, fh⟩]) =
      .error ⟨400, "Spoof detected. Please provide a live, real photo (no screens or printed photos)."⟩ := rfl

/-- Claim C8: every failure mode of the base64 resolver (malformed base64,
bytes that do not parse as an image, or any other exception in the `try`
block) surfaces as a 400 decode-error response in both endpoints — never
as a 500. -/
theorem C8_malformed_base64_is_400 (m : String) (ex : ExtractOutcome) (img : Image)
    (eng : VerifyOutcome) :
    detect_face_endpoint (.b64Error m) ex = .error ⟨400, s!"Invalid Base64 image: {m}"⟩ ∧
    detect_face_endpoint .imdecodeNone ex =
      .error ⟨400, "Invalid Base64 image: Could not decode image from Base64 string."⟩ ∧
    detect_face_endpoint (.otherError m) ex = .error ⟨400, s!"Invalid Base64 image: {m}"⟩ ∧
    verify_face (.ok img) (.b64Error m) eng = .error ⟨400, s!"Invalid Base64 image: {m}"⟩ ∧
    verify_face (.ok img) .imdecodeNone eng =
      .error ⟨400, "Invalid Base64 image: Could not decode image from Base64 string."⟩ ∧
    verify_face (.ok img) (.otherError m) eng = .error ⟨400, s!"Invalid Base64 image: {m}"⟩ :=
  ⟨rfl, rfl, rfl, rfl, rfl, rfl⟩

/-- Claim C9: under the spec's decoder contract (a successfully decoded
raster image has positive height and width — a postcondition on the
external `cv2.imdecode`), both resolvers only return images with positive
dimensions, and consequently neither pipeline, run on such an image's
height, can ever reach its division-by-zero raise site. -/
theorem C9_resolver_dims_positive (d : DecodeOutcome) (fo : FetchOutcome)
    (hd : d.meetsContract) (hf : fo.meetsContract) :
    (∀ img, read_image_from_base64 d = .ok img → 0 < img.height ∧ 0 < img.width) ∧
    (∀ img, read_image_from_url fo = .ok img → 0 < img.height ∧ 0 < img.width) ∧
    (∀ img ex, read_image_from_base64 d = .ok img →
      detect_face_core img.height ex ≠ .error .zeroDivision) ∧
    (∀ img eng, read_image_from_base64 d = .ok img →
      perform_verification_core img.height eng ≠ .error .zeroDivision) := by
  refine ⟨fun img h => read_base64_dims d hd img h,
    fun img h => read_url_dims fo hf img h, ?_, ?_⟩
  · intro img ex h
    exact detect_core_ne_zeroDiv img.height
      (Nat.pos_iff_ne_zero.mp (read_base64_dims d hd img h).1) ex
  · intro img eng h
    exact verify_core_ne_zeroDiv img.height
      (Nat.pos_iff_ne_zero.mp (read_base64_dims d hd img h).1) eng

/-- Witness for C9 at a concrete decoder outcome: a decoded 100x50 image
has positive dimensions and the zero-division site is unreachable for a
concrete extraction outcome. -/
theorem C9_witness :
    (0 < (100 : Nat) ∧ 0 < (50 : Nat)) ∧
    detect_face_core 100 (.ok []) ≠ .error .zeroDivision := by
  have h := C9_resolver_dims_positive (.ok ⟨100, 50⟩) (.ok ⟨200, 300⟩)
    ⟨by decide, by decide⟩ ⟨by decide, by decide⟩
  exact ⟨h.1 ⟨100, 50⟩ rfl, h.2.2.1 ⟨100, 50⟩ (.ok []) rfl⟩

/-- Claim C10: the 400 `NoFaceDetected` response is produced exactly by
the `ValueError` raised from strict extraction; an engine that instead
returns an empty face list without raising makes the `faces[0]` access
fail with `IndexError`, which surfaces as a 500 internal error — and a
non-empty list never reaches that `IndexError` site. -/
theorem C10_empty_list_is_500 (ih : Nat) (m : String) (f : Face) (rest : List Face) :
    detect_face ih (.valueError m) =
      .error ⟨400, "No face detected in the image. Please try again."⟩ ∧
    detect_face ih (.ok []) =
      .error ⟨500, "Internal server error: list index out of range"⟩ ∧
    detect_face_core ih (.ok (f :: rest)) ≠ .error .indexError := by
  refine ⟨rfl, rfl, ?_⟩
  simp only [detect_face_core]
  split_ifs <;> simp_all

end FaceApi
